import Mathlib

/-! Verification development for log_to_file.py, a periodic temperature
logger.  The Python source is shallowly embedded below: the scheduler
arithmetic of loop_forever is modelled over the rationals, the body of
do_sample is modelled as a pure function from its inputs (the global
already_warned flag, the enumeration result, the requested device
selector and the two formatting callbacks) to the resulting flag value,
the cycle outcome and the sequence of operations performed on the output
sink, and the formatting helpers are modelled as pure string functions. -/

/-! Section: scheduler arithmetic (loop_forever, lines 62 to 70). -/

/-- Python modulus on rationals: a - b * floor (a / b).  For a nonzero
divisor b the result has the sign of b or is zero; in particular for
b < 0 the result lies in the half open interval (b, 0]. -/
def pymod (a b : ℚ) : ℚ := a - b * (⌊a / b⌋ : ℚ)

/-- Line 68 of log_to_file.py: sleep_time = -(now - origin_time) % -interval.
In Python the unary minus binds tighter than the % operator, so with
elapsed = now - origin_time the expression is (-elapsed) % (-interval). -/
def rawSleepTime (elapsed interval : ℚ) : ℚ := pymod (-elapsed) (-interval)

/-- Lines 68 and 69 of log_to_file.py: the raw negative modulus expression
followed by the guard: if sleep_time <= 0 then sleep_time = interval. -/
def sleepTime (elapsed interval : ℚ) : ℚ :=
  if rawSleepTime elapsed interval ≤ 0 then interval else rawSleepTime elapsed interval

theorem rawSleepTime_nonpos (elapsed interval : ℚ)
    (hi : 0 < interval) : rawSleepTime elapsed interval ≤ 0 := by
  unfold rawSleepTime pymod
  rw [neg_div_neg_eq]
  have h2 : (⌊elapsed / interval⌋ : ℚ) ≤ elapsed / interval := Int.floor_le _
  have h3 : interval * (⌊elapsed / interval⌋ : ℚ) ≤ interval * (elapsed / interval) :=
    mul_le_mul_of_nonneg_left h2 hi.le
  have h4 : interval * (elapsed / interval) = elapsed := by
    field_simp
  nlinarith

theorem sleepTime_eq_interval (elapsed interval : ℚ)
    (hi : 0 < interval) : sleepTime elapsed interval = interval := by
  unfold sleepTime
  rw [if_pos (rawSleepTime_nonpos elapsed interval hi)]

/-- C10: for every interval of at least one second and every nonnegative
elapsed time since origin_time, the sleep duration computed by lines 68
and 69 (the negative modulus expression followed by the guard that
replaces a nonpositive value with the full interval) is strictly
positive and at most the interval, so time.sleep never receives a zero
or negative argument and the loop never busy spins. -/
theorem C10_sleep_positive_and_bounded (elapsed interval : ℚ)
    (he : 0 ≤ elapsed) (hi : 1 ≤ interval) :
    0 < sleepTime elapsed interval ∧ sleepTime elapsed interval ≤ interval := by
  have h0 : (0 : ℚ) < interval := lt_of_lt_of_le one_pos hi
  have _he := he
  rw [sleepTime_eq_interval elapsed interval h0]
  exact ⟨h0, le_refl interval⟩

/-- Witness for C10 at elapsed 3 and interval 10. -/
theorem C10_witness :
    (0 : ℚ) ≤ 3 ∧ (1 : ℚ) ≤ 10 ∧ 0 < sleepTime 3 10 ∧ sleepTime 3 10 ≤ 10 :=
  ⟨by norm_num, by norm_num,
    C10_sleep_positive_and_bounded 3 10 (by norm_num) (by norm_num)⟩

/-- C1: evaluation of the sleep computation at elapsed 3 and interval 10.
The raw negative modulus expression yields -3 (not the -7 the source
comment suggests, and not a remainder in [0, interval)), the guard then
forces the full interval 10 — not the grid aligned value 7 = 10 - 3 that
a drift correcting scheduler requires.  Since the raw expression is
nonpositive for every nonnegative elapsed time, the loop always sleeps
exactly the full interval and invocation instants drift by each cycle
processing time instead of staying on the grid. -/
theorem C1_sleep_at_failing_input :
    rawSleepTime 3 10 = -3 ∧ sleepTime 3 10 = 10 := by
  have hraw : rawSleepTime 3 10 = -3 := by
    unfold rawSleepTime pymod
    have h1 : ((-3 : ℚ) / (-10)) = 3 / 10 := by norm_num
    rw [h1]
    have h2 : ⌊(3 / 10 : ℚ)⌋ = 0 := by
      apply Int.floor_eq_zero_iff.mpr
      constructor <;> norm_num
    rw [h2]
    norm_num
  refine ⟨hraw, ?_⟩
  unfold sleepTime
  rw [if_pos (by rw [hraw]; norm_num)]

/-! Section: one sampling cycle (do_sample, lines 72 to 103).

The Python function reads the process wide already_warned flag, calls
temper.Temper().read() for the enumeration result, and then either
returns after the no devices handling, terminates the process through
sys.exit, raises an unpacking ValueError at the statement
[info] = outputs, or writes one line to the output file and flushes it.
Here the enumeration result and the flag are inputs, and the outcome is
returned as a CycleResult: the new flag value, the effect of the cycle,
and the list of operations performed on the output sink. -/

/-- One reading returned by the hardware layer: the dictionary with keys
"internal temperature" and "devices" used by do_sample. -/
structure DeviceReading where
  internal_temperature : ℚ
  devices : List String
deriving DecidableEq

/-- The expression info["devices"][-1]: the last element of the device
chain.  The hardware layer guarantees a nonempty chain; the empty chain
defaults to the empty string here. -/
def DeviceReading.lastName (info : DeviceReading) : String :=
  info.devices.getLastD ""

/-- An operation performed on the output sink (out_file). -/
inductive SinkOp where
  | write (line : String)
  | flush
deriving DecidableEq

/-- The outcome of one call to do_sample.
warnNoDevices: no devices found, warning printed to stderr, early return.
skipNoDevices: no devices found, warning suppressed, early return.
exitRequestedNotFound: sys.exit at line 90, the --device selector
matches no reading (fatal).
exitAmbiguous: sys.exit at line 95 with the given candidate selector
names (fatal); reached only when no --device selector was given.
ok: exactly one reading remained and was selected.
unpackError: the statement [info] = outputs raised ValueError because
the list did not have exactly one element (fatal, uncaught). -/
inductive SampleEffect where
  | warnNoDevices
  | skipNoDevices
  | exitRequestedNotFound
  | exitAmbiguous (names : List String)
  | ok (info : DeviceReading)
  | unpackError
deriving DecidableEq

/-- Returns true exactly on the exitAmbiguous outcome. -/
def SampleEffect.isAmbiguousExit : SampleEffect → Bool
  | SampleEffect.exitAmbiguous _ => true
  | _ => false

/-- Result of one sampling cycle: the value of the global already_warned
flag when the function returns, the outcome, and the operations
performed on the output sink. -/
structure CycleResult where
  already_warned : Bool
  effect : SampleEffect
  sink_ops : List SinkOp
deriving DecidableEq

/-- Line 99: the format call producing the output line, timestamp, a
comma, the formatted temperature, and a newline. -/
def formatLine (timeStr tempStr : String) : String :=
  timeStr ++ "," ++ tempStr ++ "\n"

/-- do_sample, lines 73 to 103.  timeStr stands for the value returned
by time_format_fn() during this cycle and tempFmt for temp_format_fn.
The Python control flow is: the no devices early return (lines 78 to
82), already_warned = False (line 83), then under `if device != None`
the filter to readings whose chain ends in the selector and the
sys.exit when the filter is empty (lines 85 to 90), then the multiple
device check (lines 93 to 95) whose sys.exit is guarded by
`if device == None`, then the unpacking `[info] = outputs` (line 96)
and the write plus flush (lines 99 to 103).  The match on device below
makes the same control flow explicit: when a selector is given the
multiple device sys.exit cannot fire, so a filtered list with two or
more elements falls through to the unpacking failure. -/
def do_sample (device : Option String) (timeStr : String)
    (tempFmt : ℚ → String) (already_warned : Bool)
    (outputs : List DeviceReading) : CycleResult :=
  if outputs.length = 0 then
    if already_warned then
      ⟨already_warned, SampleEffect.skipNoDevices, []⟩
    else
      ⟨true, SampleEffect.warnNoDevices, []⟩
  else
    match device with
    | some d =>
      let outputs1 := outputs.filter fun info => info.lastName == d
      if outputs1.length = 0 then
        ⟨false, SampleEffect.exitRequestedNotFound, []⟩
      else
        match outputs1 with
        | [info] =>
          ⟨false, SampleEffect.ok info,
            [SinkOp.write (formatLine timeStr (tempFmt info.internal_temperature)),
             SinkOp.flush]⟩
        | _ => ⟨false, SampleEffect.unpackError, []⟩
    | none =>
      if outputs.length ≥ 2 then
        ⟨false, SampleEffect.exitAmbiguous (outputs.map DeviceReading.lastName), []⟩
      else
        match outputs with
        | [info] =>
          ⟨false, SampleEffect.ok info,
            [SinkOp.write (formatLine timeStr (tempFmt info.internal_temperature)),
             SinkOp.flush]⟩
        | _ => ⟨false, SampleEffect.unpackError, []⟩

/-- C4: for every cycle in which hardware enumeration returns the empty
sequence, and for any requested selector, present or absent, the cycle
ends in one of the two no devices outcomes: no process terminating
effect, nothing written to the sink, the flag set, and the cycle
completes normally. -/
theorem C4_empty_enumeration_nonfatal (device : Option String)
    (ts : String) (tf : ℚ → String) (aw : Bool) :
    ((do_sample device ts tf aw []).effect = SampleEffect.warnNoDevices ∨
      (do_sample device ts tf aw []).effect = SampleEffect.skipNoDevices)
    ∧ (do_sample device ts tf aw []).sink_ops = []
    ∧ (do_sample device ts tf aw []).already_warned = true := by
  cases aw <;> simp [do_sample]

/-- C5: for every sequence of readings and every requested selector such
that exactly one reading has a device chain ending in the requested
selector, resolution selects that reading and the cycle writes its
formatted line, regardless of how many other readings exist. -/
theorem C5_unique_match_selected (d ts : String) (tf : ℚ → String)
    (aw : Bool) (outputs : List DeviceReading) (r : DeviceReading)
    (h : outputs.filter (fun info => info.lastName == d) = [r]) :
    do_sample (some d) ts tf aw outputs =
      ⟨false, SampleEffect.ok r,
        [SinkOp.write (formatLine ts (tf r.internal_temperature)), SinkOp.flush]⟩ := by
  have hne : outputs.length ≠ 0 := by
    intro h0
    rw [List.length_eq_zero.mp h0] at h
    simp at h
  simp [do_sample, hne, h]

/-- Witness for C5: among two readings exactly one ends in hidraw7. -/
theorem C5_witness :
    do_sample (some "hidraw7") "2025-11-26T14:53:10Z" (fun _ => "18.5") false
        [⟨20, ["usb1", "hidraw3"]⟩, ⟨25, ["usb2", "hidraw7"]⟩] =
      ⟨false, SampleEffect.ok ⟨25, ["usb2", "hidraw7"]⟩,
        [SinkOp.write (formatLine "2025-11-26T14:53:10Z" "18.5"), SinkOp.flush]⟩ :=
  C5_unique_match_selected "hidraw7" "2025-11-26T14:53:10Z" (fun _ => "18.5") false
    [⟨20, ["usb1", "hidraw3"]⟩, ⟨25, ["usb2", "hidraw7"]⟩]
    ⟨25, ["usb2", "hidraw7"]⟩ (by decide)

/-- C6: for every nonempty sequence of readings resolved with no
requested selector, a single reading is selected and its line written,
while two or more readings end the cycle in the ambiguous device exit
whose reported candidate names are the last chain elements of all the
readings. -/
theorem C6_no_selector_policy (ts : String) (tf : ℚ → String) (aw : Bool)
    (outputs : List DeviceReading) :
    (∀ r, outputs = [r] →
        do_sample none ts tf aw outputs =
          ⟨false, SampleEffect.ok r,
            [SinkOp.write (formatLine ts (tf r.internal_temperature)), SinkOp.flush]⟩)
    ∧ (2 ≤ outputs.length →
        do_sample none ts tf aw outputs =
          ⟨false, SampleEffect.exitAmbiguous (outputs.map DeviceReading.lastName), []⟩) := by
  constructor
  · intro r hr
    subst hr
    simp [do_sample]
  · intro h2
    have hne : outputs.length ≠ 0 := by omega
    simp [do_sample, hne, h2]

/-- Witness for C6: two readings and no requested selector end in the
ambiguous device exit listing both selector names. -/
theorem C6_witness :
    do_sample none "1764168790" (fun _ => "21.1") false
        [⟨20, ["usb1", "hidraw0"]⟩, ⟨21, ["usb2", "hidraw1"]⟩] =
      ⟨false, SampleEffect.exitAmbiguous ["hidraw0", "hidraw1"], []⟩ := by
  have h := (C6_no_selector_policy "1764168790" (fun _ => "21.1") false
    [⟨20, ["usb1", "hidraw0"]⟩, ⟨21, ["usb2", "hidraw1"]⟩]).2 (by decide)
  simpa using h

/-- C2 counterexample: two readings whose chains both end in hidraw0,
with requested selector hidraw0.  After filtering, two readings remain,
but the cycle does not end in the ambiguous device exit (that sys.exit
is guarded by `if device == None`): it ends in the uncaught unpacking
failure at `[info] = outputs`, and no candidate selector names are
reported. -/
theorem C2_counterexample :
    (do_sample (some "hidraw0") "2025-11-26T14:53:10Z" (fun _ => "20.0") false
        [⟨20, ["usb1", "hidraw0"]⟩, ⟨21, ["usb2", "hidraw0"]⟩]).effect
      = SampleEffect.unpackError
    ∧ ((do_sample (some "hidraw0") "2025-11-26T14:53:10Z" (fun _ => "20.0") false
        [⟨20, ["usb1", "hidraw0"]⟩, ⟨21, ["usb2", "hidraw0"]⟩]).effect).isAmbiguousExit
      = false := by
  constructor <;> rfl

/-- C2 amended: whenever a requested selector is provided and two or
more readings survive the filter to chains ending in that selector, the
cycle ends in the uncaught unpacking failure: fatal, but without the
ambiguous device diagnostic and without reporting candidate names. -/
theorem C2_amended_unpack_crash (d ts : String) (tf : ℚ → String)
    (aw : Bool) (outputs : List DeviceReading)
    (h : 2 ≤ (outputs.filter fun info => info.lastName == d).length) :
    do_sample (some d) ts tf aw outputs =
      ⟨false, SampleEffect.unpackError, []⟩ := by
  have hle : (outputs.filter fun info => info.lastName == d).length ≤ outputs.length :=
    List.length_filter_le _ _
  have hne : outputs.length ≠ 0 := by omega
  rcases hf : outputs.filter fun info => info.lastName == d with _ | ⟨a, _ | ⟨b, t⟩⟩
  · rw [hf] at h; simp at h
  · rw [hf] at h; simp at h
  · simp [do_sample, hne, hf]

/-- Witness for C2 amended: the same two device input as the
counterexample, with a different timestamp. -/
theorem C2_amended_witness :
    do_sample (some "hidraw0") "1764168790" (fun _ => "20.0") false
        [⟨20, ["usb1", "hidraw0"]⟩, ⟨21, ["usb2", "hidraw0"]⟩] =
      ⟨false, SampleEffect.unpackError, []⟩ :=
  C2_amended_unpack_crash "hidraw0" "1764168790" (fun _ => "20.0") false
    [⟨20, ["usb1", "hidraw0"]⟩, ⟨21, ["usb2", "hidraw0"]⟩] (by decide)

/-- C9: for every cycle in which device resolution succeeds, the sink
receives exactly one write of the line formed from the timestamp and
the formatted temperature of the selected reading, followed by a flush
before the sampling function returns. -/
theorem C9_success_writes_one_line_then_flush (device : Option String)
    (ts : String) (tf : ℚ → String) (aw : Bool)
    (outputs : List DeviceReading) (info : DeviceReading)
    (h : (do_sample device ts tf aw outputs).effect = SampleEffect.ok info) :
    (do_sample device ts tf aw outputs).sink_ops =
      [SinkOp.write (formatLine ts (tf info.internal_temperature)), SinkOp.flush] := by
  by_cases h0 : outputs.length = 0
  · cases aw <;> simp [do_sample, h0] at h
  · cases device with
    | none =>
      by_cases h2 : outputs.length ≥ 2
      · simp [do_sample, h0, h2] at h
      · rcases outputs with _ | ⟨a, _ | ⟨b, t⟩⟩
        · simp at h0
        · simp [do_sample] at h ⊢
          rw [h]
        · simp at h2
    | some d =>
      rcases hf : outputs.filter fun i => i.lastName == d with _ | ⟨a, _ | ⟨b, t⟩⟩
      · simp [do_sample, h0, hf] at h
      · simp [do_sample, h0, hf] at h ⊢
        rw [h]
      · simp [do_sample, h0, hf] at h

/-- Witness for C9: one reading, no selector; the sink operations are
the single line write followed by the flush. -/
theorem C9_witness :
    (do_sample none "2025-11-26T14:53:10Z" (fun _ => "18.5") false
        [⟨19, ["usb1", "hidraw0"]⟩]).sink_ops =
      [SinkOp.write (formatLine "2025-11-26T14:53:10Z" "18.5"), SinkOp.flush] :=
  C9_success_writes_one_line_then_flush none "2025-11-26T14:53:10Z" (fun _ => "18.5")
    false [⟨19, ["usb1", "hidraw0"]⟩] ⟨19, ["usb1", "hidraw0"]⟩
    (by decide)

/-! Section: the already_warned flag across cycles (lines 72 to 83).

The scheduling loop calls do_sample once per cycle; the process wide
already_warned flag threads from one cycle to the next.  cycleTrace
runs the cycles on a list of enumeration results and collects each
cycle result. -/

/-- Default cycle result used only as the out of range placeholder for
List.getD. -/
def dummyResult : CycleResult :=
  ⟨false, SampleEffect.skipNoDevices, []⟩

/-- The sequence of cycle results produced by running do_sample on each
enumeration result in turn, threading the already_warned flag. -/
def cycleTrace (device : Option String) (ts : String) (tf : ℚ → String) :
    Bool → List (List DeviceReading) → List CycleResult
  | _, [] => []
  | aw, outs :: rest =>
    let r := do_sample device ts tf aw outs
    r :: cycleTrace device ts tf r.already_warned rest

theorem cycleTrace_length (device : Option String) (ts : String)
    (tf : ℚ → String) :
    ∀ (enums : List (List DeviceReading)) (aw : Bool),
      (cycleTrace device ts tf aw enums).length = enums.length := by
  intro enums
  induction enums with
  | nil => intro aw; rfl
  | cons e rest ih => intro aw; simp [cycleTrace, ih]

/-- After any cycle the already_warned flag records exactly whether that
cycle saw zero devices, regardless of the flag value before the cycle. -/
theorem do_sample_flag (device : Option String) (ts : String)
    (tf : ℚ → String) (aw : Bool) (outputs : List DeviceReading) :
    (do_sample device ts tf aw outputs).already_warned = decide (outputs = []) := by
  by_cases h0 : outputs.length = 0
  · rw [List.length_eq_zero.mp h0]
    cases aw <;> simp [do_sample]
  · have hne : outputs ≠ [] := by
      intro e; rw [e] at h0; simp at h0
    cases device with
    | none =>
      by_cases h2 : outputs.length ≥ 2
      · simp [do_sample, h0, h2, hne]
      · rcases outputs with _ | ⟨a, _ | ⟨b, t⟩⟩
        · simp at h0
        · simp [do_sample]
        · simp at h2
    | some d =>
      rcases hf : outputs.filter fun i => i.lastName == d with _ | ⟨a, _ | ⟨b, t⟩⟩ <;>
        simp [do_sample, h0, hf, hne]

/-- A cycle emits the no devices warning exactly when the enumeration is
empty and the flag was clear on entry. -/
theorem do_sample_warn_iff (device : Option String) (ts : String)
    (tf : ℚ → String) (aw : Bool) (outputs : List DeviceReading) :
    (do_sample device ts tf aw outputs).effect = SampleEffect.warnNoDevices ↔
      outputs = [] ∧ aw = false := by
  by_cases h0 : outputs.length = 0
  · rw [List.length_eq_zero.mp h0]
    cases aw <;> simp [do_sample]
  · have hne : outputs ≠ [] := by
      intro e; rw [e] at h0; simp at h0
    cases device with
    | none =>
      by_cases h2 : outputs.length ≥ 2
      · simp [do_sample, h0, h2, hne]
      · rcases outputs with _ | ⟨a, _ | ⟨b, t⟩⟩
        · simp at h0
        · simp [do_sample]
        · simp at h2
    | some d =>
      rcases hf : outputs.filter fun i => i.lastName == d with _ | ⟨a, _ | ⟨b, t⟩⟩ <;>
        simp [do_sample, h0, hf, hne]

/-- The flag value seen by cycle i when the run started with flag aw:
for i = 0 the initial value, and for a later cycle the emptiness of the
previous enumeration. -/
def awBefore (aw : Bool) (enums : List (List DeviceReading)) : Nat → Bool
  | 0 => aw
  | i + 1 => decide (enums.getD i [] = [])

theorem cycleTrace_getD (device : Option String) (ts : String)
    (tf : ℚ → String) :
    ∀ (enums : List (List DeviceReading)) (aw : Bool) (i : Nat),
      i < enums.length →
      (cycleTrace device ts tf aw enums).getD i dummyResult =
        do_sample device ts tf (awBefore aw enums i) (enums.getD i []) := by
  intro enums
  induction enums with
  | nil => intro aw i hi; simp at hi
  | cons e rest ih =>
    intro aw i hi
    cases i with
    | zero => simp [cycleTrace, awBefore]
    | succ j =>
      have hj : j < rest.length := by simpa using hi
      simp only [cycleTrace, List.getD_cons_succ]
      rw [ih _ j hj]
      have haw : awBefore (do_sample device ts tf aw e).already_warned rest j =
          awBefore aw (e :: rest) (j + 1) := by
        cases j with
        | zero => simp [awBefore, do_sample_flag]
        | succ k => simp [awBefore]
      rw [haw]

/-- C3: with the flag initially clear, after cycle i of any run the
already_warned flag is set exactly when cycle i found zero devices; and
cycle i emits the no devices warning exactly when its enumeration is
empty and it is either the first cycle or the previous enumeration was
nonempty — so the warning fires once at the start of each consecutive
run of empty cycles and again after an intervening nonempty cycle. -/
theorem C3_warning_once_per_empty_run (device : Option String)
    (ts : String) (tf : ℚ → String) (enums : List (List DeviceReading))
    (i : Nat) (hi : i < enums.length) :
    ((cycleTrace device ts tf false enums).getD i dummyResult).already_warned
      = decide (enums.getD i [] = [])
    ∧ (((cycleTrace device ts tf false enums).getD i dummyResult).effect
          = SampleEffect.warnNoDevices ↔
        enums.getD i [] = [] ∧ (i = 0 ∨ enums.getD (i - 1) [] ≠ [])) := by
  rw [cycleTrace_getD device ts tf enums false i hi]
  constructor
  · exact do_sample_flag device ts tf (awBefore false enums i) (enums.getD i [])
  · rw [do_sample_warn_iff]
    cases i with
    | zero => simp [awBefore]
    | succ j => simp [awBefore]

/-- Witness for C3: an empty cycle, a nonempty cycle, then another empty
cycle; the third cycle emits the warning again. -/
theorem C3_witness :
    ((cycleTrace none "T" (fun _ => "x") false
        [[], [⟨20, ["usb1", "hidraw0"]⟩], []]).getD 2 dummyResult).effect
      = SampleEffect.warnNoDevices :=
  (C3_warning_once_per_empty_run none "T" (fun _ => "x")
    [[], [⟨20, ["usb1", "hidraw0"]⟩], []] 2 (by decide)).2.mpr
    ⟨rfl, Or.inr (by decide)⟩

/-! Section: timestamp formatting (time_format_fn for iso, lines 39 to 43).

The Python code renders datetime.datetime.now(datetime.timezone.utc)
with isoformat(), keeps the first 19 characters and appends Z.  The
civil time instant is modelled as its broken down UTC fields, and
isoformat is modelled by its documented rendering for an aware UTC
datetime: zero padded decimal fields, a dot and six microsecond digits
when the microsecond field is nonzero, and the +00:00 offset. -/

/-- The decimal digit character for n % 10. -/
def digitChar (n : Nat) : Char := Char.ofNat (48 + n % 10)

/-- Zero padded two digit decimal field, as printed by isoformat. -/
def twoDigits (n : Nat) : String :=
  String.mk [digitChar (n / 10), digitChar n]

/-- Zero padded four digit decimal field, as printed by isoformat for
the year. -/
def fourDigits (n : Nat) : String :=
  String.mk [digitChar (n / 1000), digitChar (n / 100), digitChar (n / 10), digitChar n]

/-- Zero padded six digit decimal field, as printed by isoformat for
the microseconds. -/
def sixDigits (n : Nat) : String :=
  String.mk [digitChar (n / 100000), digitChar (n / 10000), digitChar (n / 1000),
    digitChar (n / 100), digitChar (n / 10), digitChar n]

/-- A civil time instant in UTC, broken down as by datetime. -/
structure UtcDatetime where
  year : Nat
  month : Nat
  day : Nat
  hour : Nat
  minute : Nat
  second : Nat
  microsecond : Nat
deriving DecidableEq

/-- The string produced by isoformat() on an aware UTC datetime:
YYYY-MM-DDTHH:MM:SS, then .ffffff only when the microsecond field is
nonzero, then the +00:00 offset. -/
def isoformatUtc (dt : UtcDatetime) : String :=
  fourDigits dt.year ++ "-" ++ twoDigits dt.month ++ "-" ++ twoDigits dt.day ++ "T" ++
  twoDigits dt.hour ++ ":" ++ twoDigits dt.minute ++ ":" ++ twoDigits dt.second ++
  (if dt.microsecond = 0 then "" else "." ++ sixDigits dt.microsecond) ++ "+00:00"

/-- Python string slicing s[:19] keeps the first 19 code points. -/
def pySlice19 (s : String) : String := String.mk (s.data.take 19)

/-- Lines 40 to 43: isoformat()[:19] + "Z". -/
def time_format_fn_iso (dt : UtcDatetime) : String :=
  pySlice19 (isoformatUtc dt) ++ "Z"

/-- C7: for every instant, the iso format renders the UTC civil time
truncated to whole seconds as YYYY-MM-DDTHH:MM:SSZ: the microsecond
field never appears, the result is exactly 20 characters and ends in Z
rather than a numeric offset; and the fixed instant
2025-11-26T14:53:10.835759+00:00 renders as 2025-11-26T14:53:10Z. -/
theorem C7_iso_timestamp_format (dt : UtcDatetime) :
    time_format_fn_iso dt =
      fourDigits dt.year ++ "-" ++ twoDigits dt.month ++ "-" ++ twoDigits dt.day ++ "T" ++
        twoDigits dt.hour ++ ":" ++ twoDigits dt.minute ++ ":" ++ twoDigits dt.second ++ "Z"
    ∧ (time_format_fn_iso dt).length = 20
    ∧ time_format_fn_iso ⟨2025, 11, 26, 14, 53, 10, 835759⟩ = "2025-11-26T14:53:10Z" := by
  have key : pySlice19 (isoformatUtc dt) =
      fourDigits dt.year ++ "-" ++ twoDigits dt.month ++ "-" ++ twoDigits dt.day ++ "T" ++
        twoDigits dt.hour ++ ":" ++ twoDigits dt.minute ++ ":" ++ twoDigits dt.second := by
    unfold pySlice19 isoformatUtc
    by_cases h : dt.microsecond = 0
    · rw [if_pos h]; rfl
    · rw [if_neg h]; rfl
  have h1 : time_format_fn_iso dt =
      fourDigits dt.year ++ "-" ++ twoDigits dt.month ++ "-" ++ twoDigits dt.day ++ "T" ++
        twoDigits dt.hour ++ ":" ++ twoDigits dt.minute ++ ":" ++ twoDigits dt.second ++ "Z" := by
    unfold time_format_fn_iso
    rw [key]
  refine ⟨h1, ?_, ?_⟩
  · rw [h1]; rfl
  · rfl

/-! Section: temperature formatting (temp_format_fn, lines 49 to 57).

The temper library reports the internal temperature in Celsius; the
arithmetic of the three formatters is exact on the decimal values this
program handles and is modelled over the rationals.  Python str on a
number renders an integer as its bare decimal numeral and a float as
its shortest round trip decimal, which for the terminating decimal
values arising here is the decimal expansion written by pyNumStr. -/

/-- The k decimal digit characters of m, most significant first. -/
def natDigitsFixed (k m : Nat) : List Char :=
  (List.range k).map fun i => digitChar (m / 10 ^ (k - 1 - i))

/-- Number of decimal places needed for a denominator that divides one
of 10, 100, 1000, 10000, 100000; six otherwise. -/
def decimalPlaces (b : Nat) : Nat :=
  if b ∣ 10 then 1 else if b ∣ 100 then 2 else if b ∣ 1000 then 3
  else if b ∣ 10000 then 4 else if b ∣ 100000 then 5 else 6

/-- Modelled rendering of Python str on the exact numeric values this
program produces: an integer renders as its bare decimal numeral with
no point, and a non integral value with a terminating decimal expansion
renders as sign, integer part, point and fractional digits. -/
def pyNumStr (q : ℚ) : String :=
  if q.den = 1 then toString q.num
  else
    let sign := if q < 0 then "-" else ""
    let k := decimalPlaces q.den
    let scaled := q.num.natAbs * 10 ^ k / q.den
    sign ++ toString (scaled / 10 ^ k) ++ "." ++
      String.mk (natDigitsFixed k (scaled % 10 ^ k))

/-- Lines 50 to 51: str(celsius). -/
def temp_format_fn_C (celsius : ℚ) : String := pyNumStr celsius

/-- Lines 53 to 54: str((celsius + 40) * 9 / 5 - 40), in that expression
form and evaluation order. -/
def temp_format_fn_F (celsius : ℚ) : String :=
  pyNumStr ((celsius + 40) * 9 / 5 - 40)

/-- Lines 56 to 57: str(celsius + 273.15). -/
def temp_format_fn_K (celsius : ℚ) : String :=
  pyNumStr (celsius + 273.15)

/-- C8: the Fahrenheit formatter renders exactly the value of
(celsius + 40) * 9 / 5 - 40, which agrees with the textbook formula
celsius * 9 / 5 + 32 at every input; at celsius = 0 the C format
renders the string 0, the F expression evaluates to 32, and the K
format renders the string 273.15. -/
theorem C8_temperature_conversion :
    (∀ c : ℚ, temp_format_fn_F c = pyNumStr (c * 9 / 5 + 32))
    ∧ temp_format_fn_C 0 = "0"
    ∧ ((0 : ℚ) + 40) * 9 / 5 - 40 = 32
    ∧ temp_format_fn_K 0 = "273.15" := by
  refine ⟨fun c => ?_, ?_, by norm_num, ?_⟩
  · unfold temp_format_fn_F
    congr 1
    ring
  · rfl
  · have hq : ((0 : ℚ) + 273.15) = (⟨5463, 20, by decide, by decide⟩ : ℚ) := by
      rw [Rat.mk'_eq_divInt, Rat.divInt_eq_div]
      norm_num
    unfold temp_format_fn_K
    rw [hq]
    decide
